import Mathlib

/-!
Shallow embedding of the novelWriter GUI excerpt: the preferences dialog
(`nw/gui/dialogs/configeditor.py`) and the document-version view
(`nw/gui/versionview.py`).

Widget toolkit state is reduced to the values the code reads (checkbox
states, line-edit texts, spin-box values, combo-box current data), the
process-wide config object is a record, and calls to `theParent.makeAlert`
are collected into a list.  External collaborators absent from the excerpt
(`nwQuotes.SYMBOLS`, `NWDoc`) are passed in as parameters: the allowed
quote-symbol set as a list of strings, and the results of
`NWDoc.isValid` / `NWDoc.listVersions` / `NWDoc.savePermanentVersion`
as oracle values, so every theorem quantifies over their behaviour.
-/

/-- Alert severities from `nw.enum.nwAlert`; the excerpt only raises `ERROR`. -/
inductive nwAlert where
  | ERROR
  deriving DecidableEq, Repr

/-- An alert raised through `theParent.makeAlert(message, level)`. -/
structure Alert where
  message : String
  level : nwAlert
  deriving DecidableEq, Repr

/-- The process-wide mutable config object `nw.CONFIG`, restricted to the
fields the preferences dialog reads and writes. -/
structure MainConf where
  guiTheme : String
  guiSyntax : String
  guiDark : Bool
  autoSaveDoc : Nat
  autoSaveProj : Nat
  backupPath : String
  backupOnClose : Bool
  askBeforeBackup : Bool
  spellTool : String
  spellLanguage : String
  bigDocLimit : Nat
  textFont : String
  textSize : Nat
  textWidth : Nat
  textFixedW : Bool
  doJustify : Bool
  zenWidth : Nat
  textMargin : Nat
  tabWidth : Nat
  autoSelect : Bool
  doReplace : Bool
  doReplaceSQuote : Bool
  doReplaceDQuote : Bool
  doReplaceDash : Bool
  doReplaceDots : Bool
  fmtSingleQuotes : String × String
  fmtDoubleQuotes : String × String
  showTabsNSpaces : Bool
  showLineEndings : Bool
  confChanged : Bool
  deriving DecidableEq, Repr

/-- The widget values of the Editor tab (`GuiConfigEditEditor`) that
`saveValues` reads: each field is the current state of the corresponding
font box, spin box, checkbox or quote line-edit. -/
structure EditorTabState where
  textStyleFontFamily : String
  textStyleSize : Nat
  textFlowMax : Nat
  textFlowFixed : Bool
  textFlowJustify : Bool
  zenDocWidth : Nat
  textMarginDoc : Nat
  textMarginTab : Nat
  autoSelect : Bool
  autoReplaceMain : Bool
  autoReplaceSQ : Bool
  autoReplaceDQ : Bool
  autoReplaceDash : Bool
  autoReplaceDots : Bool
  quoteSingleStyleO : String
  quoteSingleStyleC : String
  quoteDoubleStyleO : String
  quoteDoubleStyleC : String
  showTabsNSpaces : Bool
  showLineEndings : Bool
  deriving DecidableEq, Repr

/-- Result of a tab's `saveValues`: the updated config, the alerts raised
through `theParent.makeAlert` in order, and the returned pair
`(validEntries, needsRestart)`. -/
structure SaveResult where
  conf : MainConf
  alerts : List Alert
  validEntries : Bool
  needsRestart : Bool
  deriving DecidableEq, Repr

namespace GuiConfigEditEditor

/-- `GuiConfigEditEditor._checkQuoteSymbol`: reject strings whose length is
not 1, then accept exactly the members of the allowed symbol set
(`nwQuotes.SYMBOLS`, passed in as `symbols`). -/
def checkQuoteSymbol (symbols : List String) (toCheck : String) : Bool :=
  if toCheck.length ≠ 1 then
    false
  else if symbols.contains toCheck then
    true
  else
    false

/-- `GuiConfigEditEditor.saveValues`, line by line from the source: every
non-quote widget value is written to the config unconditionally (including
`doReplaceDots`, which the source reads from `self.autoReplaceDash`); each
of the four quote texts is checked with `_checkQuoteSymbol`, written to its
slot when it passes, and otherwise leaves the slot alone, raises one
`Invalid quote symbol` alert and sets `validEntries` to False; finally the
writing-guide flags and `confChanged = True` are written and
`(validEntries, False)` is returned. -/
def saveValues (symbols : List String) (w : EditorTabState) (c0 : MainConf) :
    SaveResult :=
  let c1 := { c0 with
    textFont := w.textStyleFontFamily
    textSize := w.textStyleSize
    textWidth := w.textFlowMax
    textFixedW := w.textFlowFixed
    doJustify := w.textFlowJustify
    zenWidth := w.zenDocWidth
    textMargin := w.textMarginDoc
    tabWidth := w.textMarginTab
    autoSelect := w.autoSelect
    doReplace := w.autoReplaceMain
    doReplaceSQuote := w.autoReplaceSQ
    doReplaceDQuote := w.autoReplaceDQ
    doReplaceDash := w.autoReplaceDash
    doReplaceDots := w.autoReplaceDash }
  let b1 := checkQuoteSymbol symbols w.quoteSingleStyleO
  let c2 := if b1 then
      { c1 with fmtSingleQuotes := (w.quoteSingleStyleO, c1.fmtSingleQuotes.2) }
    else c1
  let a1 : List Alert := if b1 then [] else
      [⟨"Invalid quote symbol: " ++ w.quoteSingleStyleO, nwAlert.ERROR⟩]
  let b2 := checkQuoteSymbol symbols w.quoteSingleStyleC
  let c3 := if b2 then
      { c2 with fmtSingleQuotes := (c2.fmtSingleQuotes.1, w.quoteSingleStyleC) }
    else c2
  let a2 : List Alert := if b2 then [] else
      [⟨"Invalid quote symbol: " ++ w.quoteSingleStyleC, nwAlert.ERROR⟩]
  let b3 := checkQuoteSymbol symbols w.quoteDoubleStyleO
  let c4 := if b3 then
      { c3 with fmtDoubleQuotes := (w.quoteDoubleStyleO, c3.fmtDoubleQuotes.2) }
    else c3
  let a3 : List Alert := if b3 then [] else
      [⟨"Invalid quote symbol: " ++ w.quoteDoubleStyleO, nwAlert.ERROR⟩]
  let b4 := checkQuoteSymbol symbols w.quoteDoubleStyleC
  let c5 := if b4 then
      { c4 with fmtDoubleQuotes := (c4.fmtDoubleQuotes.1, w.quoteDoubleStyleC) }
    else c4
  let a4 : List Alert := if b4 then [] else
      [⟨"Invalid quote symbol: " ++ w.quoteDoubleStyleC, nwAlert.ERROR⟩]
  let c6 := { c5 with
    showTabsNSpaces := w.showTabsNSpaces
    showLineEndings := w.showLineEndings
    confChanged := true }
  ⟨c6, a1 ++ a2 ++ a3 ++ a4, b1 && b2 && b3 && b4, false⟩

end GuiConfigEditEditor

/-- The widget values of the first General tab
(`GuiConfigEditGeneralTab`) that its `saveValues` reads. -/
structure GeneralTabState where
  selectThemeData : String
  selectSyntaxData : String
  preferDarkIcons : Bool
  autoSaveDoc : Nat
  autoSaveProj : Nat
  backupPath : String
  backupOnClose : Bool
  askBeforeBackup : Bool
  deriving DecidableEq, Repr

/-- The widget values of the spell-checker tab (`GuiConfigEditGeneral`)
that its `saveValues` reads. -/
structure SpellTabState where
  spellToolData : String
  spellLangData : String
  spellBigDoc : Nat
  deriving DecidableEq, Repr

namespace GuiConfigEditGeneralTab

/-- `GuiConfigEditGeneralTab.saveValues`: compares the old `guiTheme` to
the selected one to decide `needsRestart`, writes every field plus
`confChanged = True`, raises no alert, and returns
`(True, needsRestart)`. -/
def saveValues (w : GeneralTabState) (c : MainConf) : SaveResult :=
  let needsRestart := false || (c.guiTheme != w.selectThemeData)
  let c := { c with
    guiTheme := w.selectThemeData
    guiSyntax := w.selectSyntaxData
    guiDark := w.preferDarkIcons
    autoSaveDoc := w.autoSaveDoc
    autoSaveProj := w.autoSaveProj
    backupPath := w.backupPath
    backupOnClose := w.backupOnClose
    askBeforeBackup := w.askBeforeBackup
    confChanged := true }
  ⟨c, [], true, needsRestart⟩

/-- The checked states of the two backup switches of
`GuiConfigEditGeneralTab`. -/
structure BackupSwitchesState where
  backupOnClose : Bool
  askBeforeBackup : Bool
  deriving DecidableEq, Repr

/-- The body of the `GuiConfigEditGeneralTab._toggledBackupOnClose` slot:
when the new state is off, uncheck the ask-before-backup switch; otherwise
do nothing. -/
def toggledBackupOnClose (theState : Bool) (w : BackupSwitchesState) :
    BackupSwitchesState :=
  if !theState then { w with askBeforeBackup := false } else w

/-- A toggle event on the backup-on-close switch: the switch takes its new
checked state and Qt then fires the `toggled` signal, running the
connected `_toggledBackupOnClose` slot with that state. -/
def toggleBackupOnCloseEvent (newState : Bool) (w : BackupSwitchesState) :
    BackupSwitchesState :=
  toggledBackupOnClose newState { w with backupOnClose := newState }

end GuiConfigEditGeneralTab

namespace GuiConfigEditGeneral

/-- `GuiConfigEditGeneral.saveValues`: writes the three spell-checker
fields plus `confChanged = True`, raises no alert, and returns
`(True, False)`. -/
def saveValues (w : SpellTabState) (c : MainConf) : SaveResult :=
  let c := { c with
    spellTool := w.spellToolData
    spellLanguage := w.spellLangData
    bigDocLimit := w.spellBigDoc
    confChanged := true }
  ⟨c, [], true, false⟩

end GuiConfigEditGeneral

/-- Outcome of `GuiConfigEditor._doSave`: the threaded config, the alerts
raised by the tabs in order, whether the restart message box was shown,
and whether `accept()` was called. -/
structure DoSaveResult where
  conf : MainConf
  alerts : List Alert
  restartMsgShown : Bool
  accepted : Bool
  deriving DecidableEq, Repr

namespace GuiConfigEditor

/-- `GuiConfigEditor._doSave`: runs `saveValues` on the General, spell and
Editor tabs in order against the shared config, folds their
`validEntries` with `&=` and their `needsRestart` with `|=`, shows the
restart message when needed, and calls `accept()` iff `validEntries`. -/
def doSave (symbols : List String) (g : GeneralTabState) (m : SpellTabState)
    (e : EditorTabState) (c0 : MainConf) : DoSaveResult :=
  let r1 := GuiConfigEditGeneralTab.saveValues g c0
  let validEntries1 := true && r1.validEntries
  let needsRestart1 := false || r1.needsRestart
  let r2 := GuiConfigEditGeneral.saveValues m r1.conf
  let validEntries2 := validEntries1 && r2.validEntries
  let needsRestart2 := needsRestart1 || r2.needsRestart
  let r3 := GuiConfigEditEditor.saveValues symbols e r2.conf
  let validEntries3 := validEntries2 && r3.validEntries
  let needsRestart3 := needsRestart2 || r3.needsRestart
  ⟨r3.conf, r1.alerts ++ r2.alerts ++ r3.alerts, needsRestart3, validEntries3⟩

end GuiConfigEditor

/-- The characters CPython's `str.strip()` removes (`str.isspace()`):
tab through carriage return (0x09-0x0D), the information separators
0x1C-0x1F, space, next line (0x85), no-break space (0xA0), Ogham space
mark (0x1680), the en-quad..hair-space range (0x2000-0x200A), line and
paragraph separators (0x2028, 0x2029), narrow no-break space (0x202F),
medium mathematical space (0x205F) and ideographic space (0x3000). -/
def isPySpace (c : Char) : Bool :=
  (9 ≤ c.toNat && c.toNat ≤ 13) || (28 ≤ c.toNat && c.toNat ≤ 32) ||
    c.toNat == 0x85 || c.toNat == 0xA0 || c.toNat == 0x1680 ||
    (0x2000 ≤ c.toNat && c.toNat ≤ 0x200A) || c.toNat == 0x2028 ||
    c.toNat == 0x2029 || c.toNat == 0x202F || c.toNat == 0x205F ||
    c.toNat == 0x3000

/-- Python `str.strip()` with no argument: drop leading and trailing
whitespace. -/
def pyStrip (s : String) : String :=
  String.mk (((s.data.dropWhile isPySpace).reverse.dropWhile isPySpace).reverse)

/-- Outcome of `GuiVersionView._createPermamentVersion`: the returned
bool, the alerts raised, the note passed to
`nwDoc.savePermanentVersion` when it was called, and whether
`treeView.populateTree` was re-run. -/
structure CreateVersionResult where
  result : Bool
  alerts : List Alert
  savedNote : Option String
  repopulated : Bool
  deriving DecidableEq, Repr

namespace GuiVersionView

/-- `GuiVersionView._createPermamentVersion`, from the source: bail out
when no document handle is set; save the document and bail out when
`NWDoc(project, handle).isValid()` is false; strip the version-note text
and raise a `Please provide a version note` alert when it is empty;
otherwise call `savePermanentVersion` with the stripped note, raising a
`Failed to save new version` alert when it fails and repopulating the
tree and returning True when it succeeds.  `NWDoc` lives outside the
excerpt, so `docIsValid` and `saveOk` stand for `isValid()` and
`savePermanentVersion`. -/
def createPermamentVersion (docHandle : Option String) (docIsValid : Bool)
    (saveOk : String → Bool) (versNoteText : String) : CreateVersionResult :=
  match docHandle with
  | none => ⟨false, [], none, false⟩
  | some _ =>
    if !docIsValid then
      ⟨false, [], none, false⟩
    else
      let versNote := pyStrip versNoteText
      if versNote = "" then
        ⟨false, [⟨"Please provide a version note.", nwAlert.ERROR⟩], none, false⟩
      else if !saveOk versNote then
        ⟨false, [⟨"Failed to save new version.", nwAlert.ERROR⟩], some versNote, false⟩
      else
        ⟨true, [], some versNote, true⟩

end GuiVersionView

/-- A child row of the version tree: column texts for note and date, and
the `Qt.UserRole` data stored in the note column. -/
structure VersionTreeChild where
  textNote : String
  textDate : String
  userData : String
  deriving DecidableEq, Repr

/-- A top-level folder row of the version tree. -/
structure VersionTreeFolder where
  label : String
  userData : String
  children : List VersionTreeChild
  expanded : Bool
  deriving DecidableEq, Repr

/-- The fields of a project-tree item (`theProject.projTree[tHandle]`)
that `populateTree` reads. -/
structure ProjItem where
  itemName : String
  sessionBak : Bool
  deriving DecidableEq, Repr

namespace GuiVersionTree

/-- `GuiVersionTree.populateTree`, from the source: when the handle has no
project-tree item, return without touching the tree (`none`); otherwise
clear the tree and rebuild it as two expanded folders, `Session Version`
holding the session row and `Permanent Versions` holding one row per
`nwDoc.listVersions()` triple `(versName, versDate, versNote)` — note text
in column 0, `strftime`-formatted timestamp in column 1, name as user
data — or a single `None` placeholder when the list is empty.  `NWDoc`
and the locale-dependent `strftime("%x %X")` live outside the excerpt, so
`versList` and `fmtTime` stand for them. -/
def populateTree (fmtTime : Int → String) (projOpened : Int)
    (nwItem : Option ProjItem) (versList : List (String × Int × String)) :
    Option (List VersionTreeFolder) :=
  match nwItem with
  | none => none
  | some item =>
    let sessItem : VersionTreeChild :=
      if item.sessionBak then
        ⟨"Current Session", fmtTime projOpened, "Session"⟩
      else
        ⟨"None", "", "None"⟩
    let sessDir : VersionTreeFolder := ⟨"Session Version", "None", [sessItem], true⟩
    let versChildren : List VersionTreeChild :=
      match versList with
      | [] => [⟨"None", "", "None"⟩]
      | _ => versList.map (fun v => ⟨v.2.2, fmtTime v.2.1, v.1⟩)
    let versDir : VersionTreeFolder := ⟨"Permanent Versions", "None", versChildren, true⟩
    some [sessDir, versDir]

end GuiVersionTree

/-- The internal state of `GuiVersionTreeMenu`: the version identifier the
menu will act on. -/
structure GuiVersionTreeMenuState where
  theVersion : Option String
  deriving DecidableEq, Repr

namespace GuiVersionTreeMenu

/-- `GuiVersionTreeMenu.setVersion`: store the version ID the menu should
act on, treating the string `None` as no version. -/
def setVersion (theVersion : String) (menu : GuiVersionTreeMenuState) :
    GuiVersionTreeMenuState :=
  if theVersion = "None" then
    { menu with theVersion := none }
  else
    { menu with theVersion := some theVersion }

end GuiVersionTreeMenu

namespace GuiVersionTree

/-- `GuiVersionTree._rightClickMenu`: `itemData` is the `Qt.UserRole` data
of the tree row under the click position, or `none` when the click missed
every row.  The menu is configured with `setVersion` and executed only
when the row exists and its data is not the string `None`; the Bool in
the result records whether the menu was opened. -/
def rightClickMenu (itemData : Option String)
    (menu : GuiVersionTreeMenuState) : GuiVersionTreeMenuState × Bool :=
  match itemData with
  | none => (menu, false)
  | some theVersion =>
    if theVersion ≠ "None" then
      (GuiVersionTreeMenu.setVersion theVersion menu, true)
    else
      (menu, false)

end GuiVersionTree

/-- A concrete project-tree item used to instantiate witnesses. -/
def projItemA : ProjItem := ⟨"Chapter One", true⟩

/-- A concrete version list used to instantiate witnesses. -/
def versListA : List (String × Int × String) :=
  [("v000001", 1600000000, "First draft"), ("v000002", 1600100000, "Second draft")]

/-- A concrete timestamp formatter used to instantiate witnesses. -/
def fmtTimeA (t : Int) : String := toString t

/-- A concrete allowed-symbol list used to instantiate witnesses. -/
def symbolsA : List String := ["a", "b", "c", "d"]

/-- A concrete config state used to instantiate witnesses. -/
def confA : MainConf :=
  ⟨"default", "default_light", false, 30, 60, "/backup", true, true,
   "internal", "en_GB", 800, "Mono", 12, 600, true, false, 800, 40, 4,
   true, true, true, true, true, false, ("a", "b"), ("c", "d"),
   false, false, false⟩

/-- A concrete Editor-tab widget state whose single-open quote text is
invalid (two characters) and whose other three quote texts are valid. -/
def editorTabA : EditorTabState :=
  ⟨"Serif", 13, 700, false, true, 900, 50, 8,
   false, true, false, true, true, false,
   "zz", "b", "c", "d", true, true⟩

/-- C1: `GuiConfigEditEditor._checkQuoteSymbol(s)` returns True iff the
length of `s` is exactly 1 and `s` is a member of the allowed quote symbol
set `nwQuotes.SYMBOLS`. -/
theorem checkQuoteSymbol_true_iff (symbols : List String) (s : String) :
    GuiConfigEditEditor.checkQuoteSymbol symbols s = true ↔
      (s.length = 1 ∧ s ∈ symbols) := by
  unfold GuiConfigEditEditor.checkQuoteSymbol
  by_cases hlen : s.length = 1
  · simp [hlen]
  · simp [hlen]

/-- C3: in `GuiConfigEditEditor.saveValues`, each of the four quote fields
that fails `_checkQuoteSymbol` contributes exactly one error alert and
leaves its `fmtSingleQuotes`/`fmtDoubleQuotes` slot unchanged, the returned
`validEntries` is the conjunction of the four checks (so False as soon as
one fails), and when all four pass no alert is raised. -/
theorem editor_saveValues_quote_validation (symbols : List String)
    (w : EditorTabState) (c : MainConf) :
    (GuiConfigEditEditor.saveValues symbols w c).alerts.length =
        ((if GuiConfigEditEditor.checkQuoteSymbol symbols w.quoteSingleStyleO then 0 else 1) +
         (if GuiConfigEditEditor.checkQuoteSymbol symbols w.quoteSingleStyleC then 0 else 1) +
         (if GuiConfigEditEditor.checkQuoteSymbol symbols w.quoteDoubleStyleO then 0 else 1) +
         (if GuiConfigEditEditor.checkQuoteSymbol symbols w.quoteDoubleStyleC then 0 else 1)) ∧
      (GuiConfigEditEditor.checkQuoteSymbol symbols w.quoteSingleStyleO = false →
        (GuiConfigEditEditor.saveValues symbols w c).conf.fmtSingleQuotes.1 =
          c.fmtSingleQuotes.1) ∧
      (GuiConfigEditEditor.checkQuoteSymbol symbols w.quoteSingleStyleC = false →
        (GuiConfigEditEditor.saveValues symbols w c).conf.fmtSingleQuotes.2 =
          c.fmtSingleQuotes.2) ∧
      (GuiConfigEditEditor.checkQuoteSymbol symbols w.quoteDoubleStyleO = false →
        (GuiConfigEditEditor.saveValues symbols w c).conf.fmtDoubleQuotes.1 =
          c.fmtDoubleQuotes.1) ∧
      (GuiConfigEditEditor.checkQuoteSymbol symbols w.quoteDoubleStyleC = false →
        (GuiConfigEditEditor.saveValues symbols w c).conf.fmtDoubleQuotes.2 =
          c.fmtDoubleQuotes.2) ∧
      (GuiConfigEditEditor.saveValues symbols w c).validEntries =
        (GuiConfigEditEditor.checkQuoteSymbol symbols w.quoteSingleStyleO &&
         GuiConfigEditEditor.checkQuoteSymbol symbols w.quoteSingleStyleC &&
         GuiConfigEditEditor.checkQuoteSymbol symbols w.quoteDoubleStyleO &&
         GuiConfigEditEditor.checkQuoteSymbol symbols w.quoteDoubleStyleC) ∧
      ((GuiConfigEditEditor.checkQuoteSymbol symbols w.quoteSingleStyleO &&
        GuiConfigEditEditor.checkQuoteSymbol symbols w.quoteSingleStyleC &&
        GuiConfigEditEditor.checkQuoteSymbol symbols w.quoteDoubleStyleO &&
        GuiConfigEditEditor.checkQuoteSymbol symbols w.quoteDoubleStyleC) = true →
        (GuiConfigEditEditor.saveValues symbols w c).alerts = []) := by
  cases hb1 : GuiConfigEditEditor.checkQuoteSymbol symbols w.quoteSingleStyleO <;>
    cases hb2 : GuiConfigEditEditor.checkQuoteSymbol symbols w.quoteSingleStyleC <;>
      cases hb3 : GuiConfigEditEditor.checkQuoteSymbol symbols w.quoteDoubleStyleO <;>
        cases hb4 : GuiConfigEditEditor.checkQuoteSymbol symbols w.quoteDoubleStyleC <;>
          simp [GuiConfigEditEditor.saveValues, hb1, hb2, hb3, hb4]

/-- Witness for C3 at a concrete input: `editorTabA`'s single-open quote
text `"zz"` fails the check, so its config slot keeps its old value. -/
theorem editor_saveValues_quote_validation_witness :
    (GuiConfigEditEditor.saveValues symbolsA editorTabA confA).conf.fmtSingleQuotes.1 =
      confA.fmtSingleQuotes.1 :=
  (editor_saveValues_quote_validation symbolsA editorTabA confA).2.1 (by decide)

/-- C8: after `GuiConfigEditEditor.saveValues`, `mainConf.doReplaceDots`
equals the checked state of the hyphen/dash checkbox `autoReplaceDash`, not
the dots-with-ellipsis checkbox `autoReplaceDots`: whenever the two
checkbox states differ, the saved `doReplaceDots` disagrees with the dots
checkbox. -/
theorem editor_saveValues_doReplaceDots_from_dash (symbols : List String)
    (w : EditorTabState) (c : MainConf) :
    (GuiConfigEditEditor.saveValues symbols w c).conf.doReplaceDots =
        w.autoReplaceDash ∧
      (w.autoReplaceDash ≠ w.autoReplaceDots →
        (GuiConfigEditEditor.saveValues symbols w c).conf.doReplaceDots ≠
          w.autoReplaceDots) := by
  have hdots : (GuiConfigEditEditor.saveValues symbols w c).conf.doReplaceDots =
      w.autoReplaceDash := by
    cases hb1 : GuiConfigEditEditor.checkQuoteSymbol symbols w.quoteSingleStyleO <;>
      cases hb2 : GuiConfigEditEditor.checkQuoteSymbol symbols w.quoteSingleStyleC <;>
        cases hb3 : GuiConfigEditEditor.checkQuoteSymbol symbols w.quoteDoubleStyleO <;>
          cases hb4 : GuiConfigEditEditor.checkQuoteSymbol symbols w.quoteDoubleStyleC <;>
            simp [GuiConfigEditEditor.saveValues, hb1, hb2, hb3, hb4]
  exact ⟨hdots, fun hne => hdots ▸ hne⟩

/-- Witness for C8 at a concrete input: `editorTabA` has the dash checkbox
checked and the dots checkbox unchecked, and the saved `doReplaceDots`
disagrees with the dots checkbox. -/
theorem editor_saveValues_doReplaceDots_from_dash_witness :
    (GuiConfigEditEditor.saveValues symbolsA editorTabA confA).conf.doReplaceDots ≠
      editorTabA.autoReplaceDots :=
  (editor_saveValues_doReplaceDots_from_dash symbolsA editorTabA confA).2 (by decide)

/-- C9: `GuiConfigEditEditor.saveValues` is not atomic on validation
failure: even when `validEntries` comes back False, every non-quote widget
value (font, sizes, widths, margins, auto-replace flags, writing guides)
has been written into the config, every quote slot whose text passed the
check has been written too, and `confChanged` is True. -/
theorem editor_saveValues_not_atomic (symbols : List String)
    (w : EditorTabState) (c : MainConf)
    (_hinvalid : (GuiConfigEditEditor.saveValues symbols w c).validEntries = false) :
    (GuiConfigEditEditor.saveValues symbols w c).conf.textFont = w.textStyleFontFamily ∧
      (GuiConfigEditEditor.saveValues symbols w c).conf.textSize = w.textStyleSize ∧
      (GuiConfigEditEditor.saveValues symbols w c).conf.textWidth = w.textFlowMax ∧
      (GuiConfigEditEditor.saveValues symbols w c).conf.textFixedW = w.textFlowFixed ∧
      (GuiConfigEditEditor.saveValues symbols w c).conf.doJustify = w.textFlowJustify ∧
      (GuiConfigEditEditor.saveValues symbols w c).conf.zenWidth = w.zenDocWidth ∧
      (GuiConfigEditEditor.saveValues symbols w c).conf.textMargin = w.textMarginDoc ∧
      (GuiConfigEditEditor.saveValues symbols w c).conf.tabWidth = w.textMarginTab ∧
      (GuiConfigEditEditor.saveValues symbols w c).conf.autoSelect = w.autoSelect ∧
      (GuiConfigEditEditor.saveValues symbols w c).conf.doReplace = w.autoReplaceMain ∧
      (GuiConfigEditEditor.saveValues symbols w c).conf.doReplaceSQuote = w.autoReplaceSQ ∧
      (GuiConfigEditEditor.saveValues symbols w c).conf.doReplaceDQuote = w.autoReplaceDQ ∧
      (GuiConfigEditEditor.saveValues symbols w c).conf.doReplaceDash = w.autoReplaceDash ∧
      (GuiConfigEditEditor.saveValues symbols w c).conf.showTabsNSpaces = w.showTabsNSpaces ∧
      (GuiConfigEditEditor.saveValues symbols w c).conf.showLineEndings = w.showLineEndings ∧
      (GuiConfigEditEditor.saveValues symbols w c).conf.confChanged = true ∧
      (GuiConfigEditEditor.checkQuoteSymbol symbols w.quoteSingleStyleO = true →
        (GuiConfigEditEditor.saveValues symbols w c).conf.fmtSingleQuotes.1 =
          w.quoteSingleStyleO) ∧
      (GuiConfigEditEditor.checkQuoteSymbol symbols w.quoteSingleStyleC = true →
        (GuiConfigEditEditor.saveValues symbols w c).conf.fmtSingleQuotes.2 =
          w.quoteSingleStyleC) ∧
      (GuiConfigEditEditor.checkQuoteSymbol symbols w.quoteDoubleStyleO = true →
        (GuiConfigEditEditor.saveValues symbols w c).conf.fmtDoubleQuotes.1 =
          w.quoteDoubleStyleO) ∧
      (GuiConfigEditEditor.checkQuoteSymbol symbols w.quoteDoubleStyleC = true →
        (GuiConfigEditEditor.saveValues symbols w c).conf.fmtDoubleQuotes.2 =
          w.quoteDoubleStyleC) := by
  cases hb1 : GuiConfigEditEditor.checkQuoteSymbol symbols w.quoteSingleStyleO <;>
    cases hb2 : GuiConfigEditEditor.checkQuoteSymbol symbols w.quoteSingleStyleC <;>
      cases hb3 : GuiConfigEditEditor.checkQuoteSymbol symbols w.quoteDoubleStyleO <;>
        cases hb4 : GuiConfigEditEditor.checkQuoteSymbol symbols w.quoteDoubleStyleC <;>
          simp [GuiConfigEditEditor.saveValues, hb1, hb2, hb3, hb4]

/-- Witness for C9 at a concrete input: `editorTabA` fails validation (its
single-open quote text is `"zz"`), yet its font family has been written
into the config. -/
theorem editor_saveValues_not_atomic_witness :
    (GuiConfigEditEditor.saveValues symbolsA editorTabA confA).conf.textFont =
      editorTabA.textStyleFontFamily :=
  (editor_saveValues_not_atomic symbolsA editorTabA confA (by decide)).1

/-- C2: `GuiConfigEditor._doSave` accepts the dialog iff all three tabs'
`saveValues` calls (run in order on the shared config) report their
entries valid. -/
theorem doSave_accepts_iff_all_valid (symbols : List String)
    (g : GeneralTabState) (m : SpellTabState) (e : EditorTabState)
    (c : MainConf) :
    (GuiConfigEditor.doSave symbols g m e c).accepted = true ↔
      ((GuiConfigEditGeneralTab.saveValues g c).validEntries = true ∧
       (GuiConfigEditGeneral.saveValues m
           (GuiConfigEditGeneralTab.saveValues g c).conf).validEntries = true ∧
       (GuiConfigEditEditor.saveValues symbols e
           (GuiConfigEditGeneral.saveValues m
             (GuiConfigEditGeneralTab.saveValues g c).conf).conf).validEntries =
         true) := by
  simp [GuiConfigEditor.doSave, Bool.and_assoc]

/-- C10: a toggle of the backup-on-close switch to off unchecks the
ask-before-backup switch, so right after any toggle the ask switch is
never checked while backup-on-close is unchecked, and a toggle to on
leaves the ask switch unchanged. -/
theorem toggledBackupOnClose_spec
    (w : GuiConfigEditGeneralTab.BackupSwitchesState) (b : Bool) :
    (GuiConfigEditGeneralTab.toggleBackupOnCloseEvent false w).askBeforeBackup =
        false ∧
      ((GuiConfigEditGeneralTab.toggleBackupOnCloseEvent b w).askBeforeBackup &&
        !(GuiConfigEditGeneralTab.toggleBackupOnCloseEvent b w).backupOnClose) =
        false ∧
      (GuiConfigEditGeneralTab.toggleBackupOnCloseEvent true w).askBeforeBackup =
        w.askBeforeBackup := by
  cases b <;>
    simp [GuiConfigEditGeneralTab.toggleBackupOnCloseEvent,
      GuiConfigEditGeneralTab.toggledBackupOnClose]

/-- Stripping a string made only of Python whitespace yields the empty
string. -/
theorem pyStrip_eq_empty_of_all_space (s : String)
    (h : ∀ c ∈ s.data, isPySpace c = true) : pyStrip s = "" := by
  unfold pyStrip
  rw [List.dropWhile_eq_nil_iff.mpr h]
  rfl

/-- C4: with a document handle set and a valid document,
`GuiVersionView._createPermamentVersion` raises the
`Please provide a version note` alert and returns False without calling
`savePermanentVersion` whenever the note field is empty or
whitespace-only; and whatever the handle and validity, a note is only
passed to `savePermanentVersion` when it is the non-empty stripped field
text. -/
theorem createPermamentVersion_requires_note (hdl : String)
    (saveOk : String → Bool) (text : String) :
    ((∀ c ∈ text.data, isPySpace c = true) →
      GuiVersionView.createPermamentVersion (some hdl) true saveOk text =
        ⟨false, [⟨"Please provide a version note.", nwAlert.ERROR⟩], none,
          false⟩) ∧
      (∀ (dh : Option String) (dv : Bool) (n : String),
        (GuiVersionView.createPermamentVersion dh dv saveOk text).savedNote =
            some n →
          n = pyStrip text ∧ n ≠ "") := by
  constructor
  · intro h
    simp [GuiVersionView.createPermamentVersion,
      pyStrip_eq_empty_of_all_space text h]
  · intro dh dv n hn
    cases dh with
    | none => simp [GuiVersionView.createPermamentVersion] at hn
    | some hdl2 =>
      cases dv with
      | false => simp [GuiVersionView.createPermamentVersion] at hn
      | true =>
        by_cases hs : pyStrip text = ""
        · simp [GuiVersionView.createPermamentVersion, hs] at hn
        · cases hk : saveOk (pyStrip text) with
          | false =>
            simp [GuiVersionView.createPermamentVersion, hs, hk] at hn
            exact ⟨hn.symm, hn ▸ hs⟩
          | true =>
            simp [GuiVersionView.createPermamentVersion, hs, hk] at hn
            exact ⟨hn.symm, hn ▸ hs⟩

/-- Witness for C4 at a concrete input: with a handle set, a valid
document and a whitespace-only note field, the method raises the
note alert, returns False and never calls `savePermanentVersion`. -/
theorem createPermamentVersion_requires_note_witness :
    GuiVersionView.createPermamentVersion (some "0123456789abc") true
        (fun _ => true) "  " =
      ⟨false, [⟨"Please provide a version note.", nwAlert.ERROR⟩], none,
        false⟩ :=
  (createPermamentVersion_requires_note "0123456789abc" (fun _ => true)
    "  ").1 (by decide)

/-- C5: `GuiVersionView._createPermamentVersion` returns True (and
repopulates the tree) iff a handle is set, the document is valid, the
stripped note is non-empty and `savePermanentVersion` succeeds; when
`savePermanentVersion` fails, the `Failed to save new version` alert is
raised, False is returned and the tree is not repopulated. -/
theorem createPermamentVersion_success_iff (dh : Option String) (dv : Bool)
    (saveOk : String → Bool) (text : String) :
    ((GuiVersionView.createPermamentVersion dh dv saveOk text).result = true ↔
      (dh.isSome = true ∧ dv = true ∧ pyStrip text ≠ "" ∧
        saveOk (pyStrip text) = true)) ∧
      ((GuiVersionView.createPermamentVersion dh dv saveOk text).repopulated =
        (GuiVersionView.createPermamentVersion dh dv saveOk text).result) ∧
      (dh.isSome = true → dv = true → pyStrip text ≠ "" →
        saveOk (pyStrip text) = false →
        GuiVersionView.createPermamentVersion dh dv saveOk text =
          ⟨false, [⟨"Failed to save new version.", nwAlert.ERROR⟩],
            some (pyStrip text), false⟩) := by
  cases dh with
  | none => simp [GuiVersionView.createPermamentVersion]
  | some hdl =>
    cases dv with
    | false => simp [GuiVersionView.createPermamentVersion]
    | true =>
      by_cases hs : pyStrip text = ""
      · simp [GuiVersionView.createPermamentVersion, hs]
      · cases hk : saveOk (pyStrip text) with
        | false => simp [GuiVersionView.createPermamentVersion, hs, hk]
        | true => simp [GuiVersionView.createPermamentVersion, hs, hk]

/-- Witness for C5 at a concrete input: handle set, document valid,
non-empty note, but `savePermanentVersion` fails, so the failure alert is
raised, False is returned and the tree is not repopulated. -/
theorem createPermamentVersion_success_iff_witness :
    GuiVersionView.createPermamentVersion (some "0123456789abc") true
        (fun _ => false) "v1" =
      ⟨false, [⟨"Failed to save new version.", nwAlert.ERROR⟩],
        some (pyStrip "v1"), false⟩ :=
  (createPermamentVersion_success_iff (some "0123456789abc") true
    (fun _ => false) "v1").2.2 (by decide) (by decide) (by decide)
    (by decide)

/-- C6: for a handle with a project-tree item, `populateTree` rebuilds the
tree as exactly two expanded folders, `Session Version` and
`Permanent Versions`, both carrying user data `None`; the second folder's
children are one row per `listVersions()` triple in list order — note in
column 0, formatted timestamp in column 1, name as user data — or a
single `None`-data placeholder when the list is empty. -/
theorem populateTree_structure (fmtTime : Int → String) (projOpened : Int)
    (item : ProjItem) (versList : List (String × Int × String)) :
    ∃ sessDir versDir,
      GuiVersionTree.populateTree fmtTime projOpened (some item) versList =
          some [sessDir, versDir] ∧
        sessDir.label = "Session Version" ∧ sessDir.userData = "None" ∧
        sessDir.expanded = true ∧
        versDir.label = "Permanent Versions" ∧ versDir.userData = "None" ∧
        versDir.expanded = true ∧
        (versList ≠ [] →
          versDir.children =
            versList.map (fun v => ⟨v.2.2, fmtTime v.2.1, v.1⟩)) ∧
        (versList = [] → versDir.children = [⟨"None", "", "None"⟩]) := by
  cases versList with
  | nil =>
    exact ⟨_, _, rfl, rfl, rfl, rfl, rfl, rfl, rfl,
      fun h => absurd rfl h, fun _ => rfl⟩
  | cons a tl =>
    exact ⟨_, _, rfl, rfl, rfl, rfl, rfl, rfl, rfl,
      fun _ => rfl, fun h => nomatch h⟩

/-- Witness for C6 at a concrete input: a two-version list produces the
two folders with the version rows in list order. -/
theorem populateTree_structure_witness :
    ∃ sessDir versDir,
      GuiVersionTree.populateTree fmtTimeA 0 (some projItemA) versListA =
          some [sessDir, versDir] ∧
        versDir.children =
          versListA.map (fun v => ⟨v.2.2, fmtTimeA v.2.1, v.1⟩) := by
  obtain ⟨s, v, h1, _, _, _, _, _, _, hne, _⟩ :=
    populateTree_structure fmtTimeA 0 projItemA versListA
  exact ⟨s, v, h1, hne (by decide)⟩

/-- C7: the context menu opens on a right click iff the click lands on a
row whose stored user data is not the string `None`; and when it opens,
the menu's version is exactly that row's user data, so it is always a
real version identifier. -/
theorem rightClickMenu_opens_iff (itemData : Option String)
    (menu : GuiVersionTreeMenuState) :
    ((GuiVersionTree.rightClickMenu itemData menu).2 = true ↔
      ∃ v, itemData = some v ∧ v ≠ "None") ∧
      (∀ v, itemData = some v → v ≠ "None" →
        GuiVersionTree.rightClickMenu itemData menu = (⟨some v⟩, true)) := by
  constructor
  · cases itemData with
    | none => simp [GuiVersionTree.rightClickMenu]
    | some v =>
      by_cases hv : v = "None"
      · simp [GuiVersionTree.rightClickMenu, hv]
      · simp [GuiVersionTree.rightClickMenu, hv]
  · intro v hv hne
    subst hv
    simp [GuiVersionTree.rightClickMenu, GuiVersionTreeMenu.setVersion, hne]

/-- Witness for C7 at a concrete input: a click on a row holding version
`v000001` opens the menu with that version stored. -/
theorem rightClickMenu_opens_iff_witness :
    GuiVersionTree.rightClickMenu (some "v000001") ⟨none⟩ =
      (⟨some "v000001"⟩, true) :=
  (rightClickMenu_opens_iff (some "v000001") ⟨none⟩).2 "v000001" rfl
    (by decide)
